import Mathlib

/-!
Verification of the pic2pic-nextgen desktop command bridge
(src/desktop/src-tauri/src/main.rs) against its specification.

The bridge exposes four commands: get_system_info, read_local_file,
write_local_file and list_directory.  Each is a one-line delegation to a
platform call with error-string mapping.  We model the platform (std::fs,
std::env::consts, the Tauri window manager) explicitly and translate each
command from the Rust source.
-/

namespace Pic2Pic

/-- Raw byte sequence, modelling Rust Vec<u8>. -/
abbrev Bytes := List Nat

/-- Model of std::io::Error as observed by the bridge: the bridge only ever
uses its Display rendering (e.to_string()), so the model carries exactly
that string. -/
structure IoError where
  message : String

/-- Model of std::io::Error::to_string (the Display rendering). -/
def IoError.to_string (e : IoError) : String := e.message

/-- Model of an OS-level file name (std::ffi::OsString) as the bridge sees
it: the raw platform bytes together with the result of to_str, which is
some display string exactly when the raw name is valid display text. -/
structure OsName where
  bytes : List Nat
  display : Option String

/-- One item yielded by the std::fs::ReadDir iterator: either an entry read
successfully from the directory stream, or a per-entry platform error. -/
inductive DirItem where
  | ok (name : OsName)
  | err (e : IoError)

/-- A filesystem node: a regular file with contents, or a directory with
the stream of items that read_dir yields for it. -/
inductive Node where
  | file (contents : Bytes)
  | dir (items : List DirItem)

/-- Association-list lookup of a path among filesystem entries; the first
binding for a path is the current one. -/
def lookupPath : List (String × Node) → String → Option Node
  | [], _ => none
  | (q, n) :: rest, p => if q = p then some n else lookupPath rest p

/-- Model of the filesystem state seen by the std::fs calls: an association
list from absolute path strings to nodes, plus an oracle saying whether a
write at a given path succeeds (collapsing permission failures, missing
parent directories and similar platform conditions). -/
structure FS where
  entries : List (String × Node)
  writable : String → Bool

/-- Current node at a path. -/
def FS.lookup (fs : FS) (p : String) : Option Node := lookupPath fs.entries p

/-- The platform error for a missing path. -/
def notFoundErr : IoError := ⟨"No such file or directory (os error 2)"⟩

/-- The platform error for reading a directory as a file. -/
def isDirErr : IoError := ⟨"Is a directory (os error 21)"⟩

/-- The platform error for listing a non-directory. -/
def notDirErr : IoError := ⟨"Not a directory (os error 20)"⟩

/-- The platform error for a rejected write. -/
def deniedErr : IoError := ⟨"Permission denied (os error 13)"⟩

/-- Model of std::fs::read: the contents of the file at the path, or a
platform error when the path is missing or names a directory. -/
def fsRead (fs : FS) (p : String) : Except IoError Bytes :=
  match fs.lookup p with
  | some (Node.file b) => Except.ok b
  | some (Node.dir _) => Except.error isDirErr
  | none => Except.error notFoundErr

/-- Model of std::fs::write: when the platform accepts the write, the file
at the path now holds exactly the given bytes (create or truncate) and the
updated filesystem is returned; otherwise a platform error. -/
def fsWrite (fs : FS) (p : String) (b : Bytes) : Except IoError FS :=
  if fs.writable p then
    Except.ok ⟨(p, Node.file b) :: fs.entries, fs.writable⟩
  else
    Except.error deniedErr

/-- Model of std::fs::read_dir: the directory stream at the path, or a
platform error when the path is missing or not a directory. -/
def fsReadDir (fs : FS) (p : String) : Except IoError (List DirItem) :=
  match fs.lookup p with
  | some (Node.dir items) => Except.ok items
  | some (Node.file _) => Except.error notDirErr
  | none => Except.error notFoundErr

/-- Rust Result::map_err specialised to the bridge use. -/
def map_err {α ε ε2 : Type} (r : Except ε α) (f : ε → ε2) : Except ε2 α :=
  match r with
  | Except.ok v => Except.ok v
  | Except.error e => Except.error (f e)

/-- Translation of read_local_file:
std::fs::read(&path).map_err(|e| e.to_string()). -/
def read_local_file (fs : FS) (path : String) : Except String Bytes :=
  map_err (fsRead fs path) IoError.to_string

/-- Translation of write_local_file:
std::fs::write(&path, &contents).map_err(|e| e.to_string()).
The Rust success payload is the unit value; the updated filesystem is
returned as the effect of the call. -/
def write_local_file (fs : FS) (path : String) (contents : Bytes) :
    Except String FS :=
  map_err (fsWrite fs path contents) IoError.to_string

/-- The for-loop of list_directory: push the name of every entry that was
read successfully from the stream and whose name decodes to display text
(to_str is some); per-entry errors and non-decodable names are skipped. -/
def collectNames : List DirItem → List String
  | [] => []
  | DirItem.ok nm :: rest =>
    match nm.display with
    | some s => s :: collectNames rest
    | none => collectNames rest
  | DirItem.err _ :: rest => collectNames rest

/-- Translation of list_directory: std::fs::read_dir(&path) mapped through
e.to_string() with the question-mark operator, then the accumulation loop
over the entries. -/
def list_directory (fs : FS) (path : String) : Except String (List String) :=
  match map_err (fsReadDir fs path) IoError.to_string with
  | Except.error e => Except.error e
  | Except.ok entries => Except.ok (collectNames entries)

/-- The possible values of the compile-time constant std::env::consts::OS,
per the Rust standard library documentation. -/
def osConsts : List String :=
  ["linux", "macos", "ios", "freebsd", "dragonfly", "netbsd", "openbsd",
   "solaris", "android", "windows"]

/-- The possible values of the compile-time constant std::env::consts::ARCH,
per the Rust standard library documentation. -/
def archConsts : List String :=
  ["x86", "x86_64", "arm", "aarch64", "loongarch64", "m68k", "mips",
   "mips32r6", "mips64", "mips64r6", "csky", "powerpc", "powerpc64",
   "riscv32", "riscv64", "s390x", "sparc", "sparc64"]

/-- A compilation target: it fixes the compile-time constants OS and ARCH
to one of their documented values. -/
structure BuildTarget where
  os : String
  arch : String
  os_mem : os ∈ osConsts
  arch_mem : arch ∈ archConsts

/-- The JSON object built by get_system_info: fields platform, arch and
app_version, all strings. -/
structure SystemInfo where
  platform : String
  arch : String
  app_version : String

/-- Translation of get_system_info: a record of the two compile-time
platform constants and the fixed application version string. -/
def get_system_info (t : BuildTarget) : SystemInfo :=
  ⟨t.os, t.arch, "2.0.0"⟩

/-- Model of a Tauri webview window: its label, current title, and an
oracle saying whether the platform rejects a set_title call on it. -/
structure WebviewWindow where
  label : String
  title : String
  set_title_fails : Bool

/-- Model of WebviewWindow::set_title: either the platform rejects the call
with an error, or the window now carries the given title. -/
def WebviewWindow.set_title (w : WebviewWindow) (t : String) :
    Except String WebviewWindow :=
  if w.set_title_fails then Except.error "failed to set window title"
  else Except.ok { w with title := t }

/-- Model of the Tauri app handle passed to the setup closure: the set of
webview windows it manages. -/
structure App where
  windows : List WebviewWindow

/-- Model of Manager::get_webview_window: the first managed window with the
given label, if any. -/
def App.get_webview_window (app : App) (label : String) :
    Option WebviewWindow :=
  app.windows.find? (fun w => w.label == label)

/-- Outcome of running the setup closure: either a Rust panic (unwrap on
None or on Err), which aborts the process during startup, or normal
completion with the retitled main window. -/
inductive SetupResult where
  | fatal (msg : String)
  | ok (w : WebviewWindow)

/-- Translation of the setup closure in main:
app.get_webview_window("main").unwrap() followed by
window.set_title("pic2pic-nextgen v2.0.0").unwrap(). -/
def setup (app : App) : SetupResult :=
  match app.get_webview_window "main" with
  | none => SetupResult.fatal "called unwrap on a None value"
  | some window =>
    match window.set_title "pic2pic-nextgen v2.0.0" with
    | Except.error e => SetupResult.fatal e
    | Except.ok w => SetupResult.ok w

/-! ## Helper lemmas -/

theorem write_ok_elim {fs : FS} {p : String} {b : Bytes} {fs1 : FS}
    (h : write_local_file fs p b = Except.ok fs1) :
    fs.writable p = true ∧
      fs1 = FS.mk ((p, Node.file b) :: fs.entries) fs.writable := by
  by_cases hw : fs.writable p
  · refine ⟨hw, ?_⟩
    unfold write_local_file fsWrite map_err at h
    simp [hw] at h
    exact h.symm
  · exfalso
    unfold write_local_file fsWrite map_err at h
    simp [hw] at h

/-- The entry pushed by the loop per item: the display name of a
successfully read entry, nothing otherwise. -/
def itemDisplay : DirItem → Option String
  | DirItem.ok nm => nm.display
  | DirItem.err _ => none

theorem collectNames_eq_filterMap (items : List DirItem) :
    collectNames items = items.filterMap itemDisplay := by
  induction items with
  | nil => rfl
  | cons x rest ih =>
    cases x with
    | ok nm =>
      cases hd : nm.display with
      | none => simp [collectNames, hd, itemDisplay, List.filterMap_cons, ih]
      | some s => simp [collectNames, hd, itemDisplay, List.filterMap_cons, ih]
    | err e => simp [collectNames, itemDisplay, List.filterMap_cons, ih]

theorem collectNames_append (xs ys : List DirItem) :
    collectNames (xs ++ ys) = collectNames xs ++ collectNames ys := by
  simp [collectNames_eq_filterMap, List.filterMap_append]

theorem mem_collectNames (s : String) (items : List DirItem) :
    s ∈ collectNames items ↔
      ∃ nm, DirItem.ok nm ∈ items ∧ nm.display = some s := by
  rw [collectNames_eq_filterMap, List.mem_filterMap]
  constructor
  · rintro ⟨a, ha, hd⟩
    cases a with
    | ok nm => exact ⟨nm, ha, hd⟩
    | err e => simp [itemDisplay] at hd
  · rintro ⟨nm, hmem, hd⟩
    exact ⟨DirItem.ok nm, hmem, hd⟩

theorem collectNames_map_ok (nms : List OsName) (names : List String)
    (h : List.map OsName.display nms = List.map some names) :
    collectNames (List.map DirItem.ok nms) = names := by
  induction nms generalizing names with
  | nil =>
    cases names with
    | nil => rfl
    | cons t ts => simp at h
  | cons nm rest ih =>
    cases names with
    | nil => simp at h
    | cons t ts =>
      simp only [List.map_cons, List.cons.injEq] at h
      simp [collectNames, h.1, ih ts h.2]

/-! ## Claims -/

/-- C1: for every path P, after a successful write_local_file(P, B) with no
later write to P (writes to other paths allowed), read_local_file(P)
returns Success with exactly the bytes B. -/
theorem C1_read_after_write (fs : FS) (P : String) (B : Bytes) (fs1 : FS)
    (hw : write_local_file fs P B = Except.ok fs1) :
    read_local_file fs1 P = Except.ok B ∧
    ∀ Q B2 fs2, Q ≠ P → write_local_file fs1 Q B2 = Except.ok fs2 →
      read_local_file fs2 P = Except.ok B := by
  obtain ⟨hwr, rfl⟩ := write_ok_elim hw
  constructor
  · simp [read_local_file, fsRead, FS.lookup, lookupPath, map_err]
  · intro Q B2 fs2 hne hw2
    obtain ⟨hwr2, rfl⟩ := write_ok_elim hw2
    simp [read_local_file, fsRead, FS.lookup, lookupPath, map_err, hne]

/-- witness for C1 at a concrete filesystem, path and byte string. -/
theorem C1_read_after_write_witness :
    write_local_file ⟨[], fun _ => true⟩ "a" [1, 2] =
        Except.ok ⟨[("a", Node.file [1, 2])], fun _ => true⟩ ∧
    read_local_file ⟨[("a", Node.file [1, 2])], fun _ => true⟩ "a" =
        Except.ok [1, 2] :=
  ⟨rfl, (C1_read_after_write ⟨[], fun _ => true⟩ "a" [1, 2]
      ⟨[("a", Node.file [1, 2])], fun _ => true⟩ rfl).1⟩

/-- C2: each of the three fallible commands yields exactly the platform
call's outcome: Success with the payload, or Failure whose message is
exactly the platform error's string rendering, with nothing else in
between. -/
theorem C2_outcome_taxonomy (fs : FS) (p : String) (b : Bytes) :
    ((∃ v, fsRead fs p = Except.ok v ∧ read_local_file fs p = Except.ok v) ∨
      (∃ e, fsRead fs p = Except.error e ∧
        read_local_file fs p = Except.error (IoError.to_string e))) ∧
    ((∃ fs2, fsWrite fs p b = Except.ok fs2 ∧
        write_local_file fs p b = Except.ok fs2) ∨
      (∃ e, fsWrite fs p b = Except.error e ∧
        write_local_file fs p b = Except.error (IoError.to_string e))) ∧
    ((∃ items, fsReadDir fs p = Except.ok items ∧
        list_directory fs p = Except.ok (collectNames items)) ∨
      (∃ e, fsReadDir fs p = Except.error e ∧
        list_directory fs p = Except.error (IoError.to_string e))) := by
  refine ⟨?_, ?_, ?_⟩
  · cases h : fsRead fs p with
    | ok v => exact Or.inl ⟨v, rfl, by simp [read_local_file, h, map_err]⟩
    | error e =>
      exact Or.inr ⟨e, rfl, by simp [read_local_file, h, map_err]⟩
  · cases h : fsWrite fs p b with
    | ok fs2 => exact Or.inl ⟨fs2, rfl, by simp [write_local_file, h, map_err]⟩
    | error e =>
      exact Or.inr ⟨e, rfl, by simp [write_local_file, h, map_err]⟩
  · cases h : fsReadDir fs p with
    | ok items =>
      exact Or.inl ⟨items, rfl, by simp [list_directory, h, map_err]⟩
    | error e =>
      exact Or.inr ⟨e, rfl, by simp [list_directory, h, map_err]⟩

/-- C3: on a non-existent path, read_local_file and list_directory both
return Failure (with the platform not-found message), never Success. -/
theorem C3_nonexistent_fails (fs : FS) (p : String) (h : fs.lookup p = none) :
    read_local_file fs p = Except.error (IoError.to_string notFoundErr) ∧
    list_directory fs p = Except.error (IoError.to_string notFoundErr) := by
  simp [read_local_file, list_directory, fsRead, fsReadDir, h, map_err]

/-- witness for C3 at a concrete empty filesystem. -/
theorem C3_nonexistent_fails_witness :
    read_local_file ⟨[], fun _ => true⟩ "/nonexistent/x" =
      Except.error (IoError.to_string notFoundErr) ∧
    list_directory ⟨[], fun _ => true⟩ "/nonexistent/x" =
      Except.error (IoError.to_string notFoundErr) :=
  C3_nonexistent_fails ⟨[], fun _ => true⟩ "/nonexistent/x" rfl

/-- C4: listing a directory succeeds and yields exactly the display names
of its decodable entries, in stream order: when all N entries are
successfully read and decodable it returns exactly those N names, and
non-decodable names are omitted without failing the call. -/
theorem C4_list_names (fs : FS) (D : String) (items : List DirItem)
    (h : fs.lookup D = some (Node.dir items)) :
    list_directory fs D = Except.ok (collectNames items) ∧
    (∀ nms names, items = List.map DirItem.ok nms →
      List.map OsName.display nms = List.map some names →
      collectNames items = names) ∧
    (∀ s, s ∈ collectNames items ↔
      ∃ nm, DirItem.ok nm ∈ items ∧ nm.display = some s) := by
  refine ⟨?_, ?_, ?_⟩
  · simp [list_directory, fsReadDir, h, map_err]
  · intro nms names h1 h2
    subst h1
    exact collectNames_map_ok nms names h2
  · intro s
    exact mem_collectNames s items

/-- witness for C4: a directory with one decodable and one non-decodable
entry lists exactly the decodable name. -/
theorem C4_list_names_witness :
    list_directory ⟨[("d", Node.dir [DirItem.ok ⟨[97], some "a"⟩,
        DirItem.ok ⟨[255], none⟩])], fun _ => true⟩ "d" =
      Except.ok ["a"] :=
  (C4_list_names ⟨[("d", Node.dir [DirItem.ok ⟨[97], some "a"⟩,
      DirItem.ok ⟨[255], none⟩])], fun _ => true⟩ "d"
    [DirItem.ok ⟨[97], some "a"⟩, DirItem.ok ⟨[255], none⟩] rfl).1

/-- C5: get_system_info always succeeds (it is a total function of the
build target) and returns a non-empty OS name, a non-empty architecture
identifier and the version string 2.0.0. -/
theorem C5_system_info_total (t : BuildTarget) :
    (get_system_info t).platform ≠ "" ∧
    (get_system_info t).arch ≠ "" ∧
    (get_system_info t).app_version = "2.0.0" := by
  obtain ⟨os, arch, hos, harch⟩ := t
  refine ⟨?_, ?_, rfl⟩
  · simp only [osConsts, List.mem_cons, List.not_mem_nil, or_false] at hos
    rcases hos with h|h|h|h|h|h|h|h|h|h <;> subst h <;>
      simp [get_system_info]
  · simp only [archConsts, List.mem_cons, List.not_mem_nil, or_false] at harch
    rcases harch with
      h|h|h|h|h|h|h|h|h|h|h|h|h|h|h|h|h|h <;> subst h <;>
      simp [get_system_info]

/-- witness for C5 at the linux x86_64 build target. -/
theorem C5_system_info_total_witness :
    (get_system_info ⟨"linux", "x86_64", by simp [osConsts],
        by simp [archConsts]⟩).platform ≠ "" ∧
    (get_system_info ⟨"linux", "x86_64", by simp [osConsts],
        by simp [archConsts]⟩).arch ≠ "" ∧
    (get_system_info ⟨"linux", "x86_64", by simp [osConsts],
        by simp [archConsts]⟩).app_version = "2.0.0" :=
  C5_system_info_total ⟨"linux", "x86_64", by simp [osConsts],
    by simp [archConsts]⟩

/-- C6: write_local_file(P, B) followed by read_local_file(P) is
idempotent: after a successful first write the read yields B, a second
write of the same bytes succeeds, and the read after it again yields B. -/
theorem C6_write_read_idempotent (fs : FS) (P : String) (B : Bytes)
    (fs1 : FS) (hw : write_local_file fs P B = Except.ok fs1) :
    read_local_file fs1 P = Except.ok B ∧
    ∃ fs2, write_local_file fs1 P B = Except.ok fs2 ∧
      read_local_file fs2 P = Except.ok B := by
  obtain ⟨hwr, rfl⟩ := write_ok_elim hw
  refine ⟨?_, ⟨(P, Node.file B) :: (P, Node.file B) :: fs.entries,
      fs.writable⟩, ?_, ?_⟩
  · simp [read_local_file, fsRead, FS.lookup, lookupPath, map_err]
  · simp [write_local_file, fsWrite, map_err, hwr]
  · simp [read_local_file, fsRead, FS.lookup, lookupPath, map_err]

/-- witness for C6 at a concrete filesystem, path and byte string. -/
theorem C6_write_read_idempotent_witness :
    read_local_file ⟨[("b", Node.file [7])], fun _ => true⟩ "b" =
      Except.ok [7] ∧
    ∃ fs2, write_local_file ⟨[("b", Node.file [7])], fun _ => true⟩ "b" [7] =
      Except.ok fs2 ∧ read_local_file fs2 "b" = Except.ok [7] :=
  C6_write_read_idempotent ⟨[], fun _ => true⟩ "b" [7]
    ⟨[("b", Node.file [7])], fun _ => true⟩ rfl

/-- C7: if the main webview window cannot be located, or setting its title
fails, the setup closure panics (aborting startup); setup only completes
normally when the window was found and now carries the fixed title. -/
theorem C7_setup_fatal (app : App) :
    (App.get_webview_window app "main" = none →
      ∃ m, setup app = SetupResult.fatal m) ∧
    (∀ w, App.get_webview_window app "main" = some w →
      w.set_title_fails = true → ∃ m, setup app = SetupResult.fatal m) ∧
    (∀ w, setup app = SetupResult.ok w →
      (∃ w0, App.get_webview_window app "main" = some w0) ∧
      w.title = "pic2pic-nextgen v2.0.0") := by
  refine ⟨?_, ?_, ?_⟩
  · intro h
    exact ⟨"called unwrap on a None value", by simp [setup, h]⟩
  · intro w hw hf
    exact ⟨"failed to set window title",
      by simp [setup, hw, WebviewWindow.set_title, hf]⟩
  · intro w hok
    cases hw : App.get_webview_window app "main" with
    | none => simp [setup, hw] at hok
    | some w0 =>
      refine ⟨⟨w0, rfl⟩, ?_⟩
      by_cases hf : w0.set_title_fails
      · simp [setup, hw, WebviewWindow.set_title, hf] at hok
      · simp [setup, hw, WebviewWindow.set_title, hf] at hok
        subst hok
        rfl

/-- witness for C7: an app with no windows makes setup fatal. -/
theorem C7_setup_fatal_witness :
    ∃ m, setup ⟨[]⟩ = SetupResult.fatal m :=
  (C7_setup_fatal ⟨[]⟩).1 rfl

/-- C8: a per-entry error in the directory stream is silently skipped:
the call still returns Success, its payload is the same as without the
failed entry, and it contains exactly the decodable names of the entries
that were read successfully. -/
theorem C8_per_entry_error_skipped (fs : FS) (D : String)
    (pre post : List DirItem) (e : IoError)
    (h : fs.lookup D = some (Node.dir (pre ++ DirItem.err e :: post))) :
    list_directory fs D = Except.ok (collectNames (pre ++ post)) ∧
    ∀ s, s ∈ collectNames (pre ++ post) ↔
      ∃ nm, DirItem.ok nm ∈ pre ++ DirItem.err e :: post ∧
        nm.display = some s := by
  have hskip : collectNames (pre ++ DirItem.err e :: post)
      = collectNames (pre ++ post) := by
    simp [collectNames_append, collectNames]
  constructor
  · rw [← hskip]
    simp [list_directory, fsReadDir, h, map_err]
  · intro s
    rw [← hskip]
    exact mem_collectNames s (pre ++ DirItem.err e :: post)

/-- witness for C8: a stream with a failed entry between two good ones
still lists both good names. -/
theorem C8_per_entry_error_skipped_witness :
    list_directory ⟨[("d", Node.dir [DirItem.ok ⟨[97], some "a"⟩,
        DirItem.err ⟨"interrupted"⟩, DirItem.ok ⟨[98], some "b"⟩])],
      fun _ => true⟩ "d" = Except.ok ["a", "b"] :=
  (C8_per_entry_error_skipped ⟨[("d", Node.dir [DirItem.ok ⟨[97], some "a"⟩,
      DirItem.err ⟨"interrupted"⟩, DirItem.ok ⟨[98], some "b"⟩])],
    fun _ => true⟩ "d" [DirItem.ok ⟨[97], some "a"⟩]
    [DirItem.ok ⟨[98], some "b"⟩] ⟨"interrupted"⟩ rfl).1

/-- C9: the three commands are total over all string paths including the
empty string: no precondition check exists, and whatever error the
platform reports at such a path is returned as Failure with exactly the
platform message, never a panic. -/
theorem C9_total_on_empty_path (fs : FS) (b : Bytes) :
    (∀ e, fsRead fs "" = Except.error e →
      read_local_file fs "" = Except.error (IoError.to_string e)) ∧
    (∀ e, fsWrite fs "" b = Except.error e →
      write_local_file fs "" b = Except.error (IoError.to_string e)) ∧
    (∀ e, fsReadDir fs "" = Except.error e →
      list_directory fs "" = Except.error (IoError.to_string e)) := by
  refine ⟨?_, ?_, ?_⟩ <;> intro e h <;>
    simp [read_local_file, write_local_file, list_directory, h, map_err]

/-- witness for C9: on the empty path over an empty read-only filesystem
all three commands fail with the platform message. -/
theorem C9_total_on_empty_path_witness :
    read_local_file ⟨[], fun _ => false⟩ "" =
      Except.error (IoError.to_string notFoundErr) ∧
    write_local_file ⟨[], fun _ => false⟩ "" [0] =
      Except.error (IoError.to_string deniedErr) ∧
    list_directory ⟨[], fun _ => false⟩ "" =
      Except.error (IoError.to_string notFoundErr) :=
  ⟨(C9_total_on_empty_path ⟨[], fun _ => false⟩ [0]).1 notFoundErr rfl,
   (C9_total_on_empty_path ⟨[], fun _ => false⟩ [0]).2.1 deniedErr rfl,
   (C9_total_on_empty_path ⟨[], fun _ => false⟩ [0]).2.2 notFoundErr rfl⟩

/-- C10: get_system_info is deterministic within a single build: any two
invocations on targets with the same compile-time OS and ARCH constants
return equal records. -/
theorem C10_deterministic (t1 t2 : BuildTarget)
    (hos : t1.os = t2.os) (harch : t1.arch = t2.arch) :
    get_system_info t1 = get_system_info t2 := by
  simp [get_system_info, SystemInfo.mk.injEq, hos, harch]

/-- witness for C10 at the linux x86_64 build target. -/
theorem C10_deterministic_witness :
    get_system_info ⟨"linux", "x86_64", by simp [osConsts],
        by simp [archConsts]⟩ =
      get_system_info ⟨"linux", "x86_64", by simp [osConsts],
        by simp [archConsts]⟩ :=
  C10_deterministic _ _ rfl rfl

end Pic2Pic
